import Mathlib

/-!
Verification of the statistics-banner component of the shuttle-www repository.

The repository source under scrutiny is the React component
`src/components/sections/CommunitySupportedNumbers.tsx`, a presentational
component with every piece of content hardcoded.  We shallowly embed the
markup tree it returns as an inductive `Node` value, keeping tag names,
attribute lists (with `className` strings verbatim from the source) and
child order exactly as written in the JSX.

The specification re-architects this component as a pure function
`MetricsStrip` over an explicit `MetricsStripConfig`; that generalisation
does not exist in the source, so it is modelled here from the words of the
specification and anchored to the source by the theorem that instantiating
it at the reference configuration yields exactly the source tree.

On top of the tree we define observation functions: text extraction,
metric-block / link / svg collection, a narration-text extraction that
skips aria-hidden subtrees, a serialiser, and a small semantics of the
Tailwind utility classes the component actually uses (responsive variants,
display, grid templates, column spans, hover offset) together with CSS grid
sequential auto-placement, so that the layout claims can be stated about
the rendered classes rather than about our own definitions.
-/

/-- Attribute list of an element: name-value pairs in source order,
`className` included as an ordinary attribute. -/
abbrev Attrs := List (String × String)

/-- A markup tree: text nodes and elements with a tag, attributes and
ordered children. -/
inductive Node where
  | text (s : String)
  | elem (tg : String) (attrs : Attrs) (children : List Node)

/-- The tag of a node (text nodes have none). -/
def tagOf : Node → String
  | .text _ => ""
  | .elem t _ _ => t

/-- The attribute list of a node. -/
def attrsOf : Node → Attrs
  | .text _ => []
  | .elem _ a _ => a

/-- The children of a node. -/
def childrenOf : Node → List Node
  | .text _ => []
  | .elem _ _ cs => cs

/-- The `className` attribute of a node, `""` when absent. -/
def classAttr (n : Node) : String :=
  (List.lookup "className" (attrsOf n)).getD ""

/--
The component `CommunitySupportedNumbers` from
`src/components/sections/CommunitySupportedNumbers.tsx`, transcribed
element by element.  The source is an arrow function declaring no
parameters, so any React props passed at an invocation are ignored; the
embedding makes that explicit by taking the (ignored) props list as an
argument.  `next/link` renders an anchor element, embedded as tag `"a"`
with its `href`.
-/
def CommunitySupportedNumbers (_ : Attrs) : Node :=
  .elem "div" [("className", "mt-24 border-y border-[#191919] py-12 lg:py-0")] [
    .elem "div" [("className", "mx-auto grid w-full max-w-[1280px] grid-cols-3 gap-y-12 gap-x-8 px-5 sm:gap-14 sm:px-10 lg:grid-cols-[1fr_51px_1fr_1fr_1fr] lg:items-center")] [
      .elem "div" [("className", "col-span-3 lg:col-span-1 lg:py-12")] [
        .elem "h2" [("className", "font-gradual text-2xl font-bold text-[#C2C2C2]")] [
          .text "Supported by the community"],
        .elem "a" [("href", "#"), ("className", "group mt-3 inline-flex items-center")] [
          .text "Join them now",
          .elem "svg" [("className", "relative left-2 text-[#D8D8D8] transition-all duration-300 ease-in-out group-hover:left-4"),
                       ("width", "17"), ("height", "14"), ("viewBox", "0 0 17 14"),
                       ("fill", "none"), ("stroke", "currentColor"),
                       ("xmlns", "http://www.w3.org/2000/svg")] [
            .elem "path" [("d", "M0 7H15M15 7L9.78261 1M15 7L9.78261 13"), ("strokeWidth", "2")] []]]],
      .elem "svg" [("className", "hidden h-full w-auto text-[#191919] lg:block"),
                   ("width", "51"), ("height", "192"), ("viewBox", "0 0 51 192"),
                   ("fill", "currentColor"), ("xmlns", "http://www.w3.org/2000/svg")] [
        .elem "path" [("d", "M0 0H1L51 96L1 192H0L50 96L0 0Z")] []],
      .elem "div" [("className", "text-center lg:py-12")] [
        .elem "p" [("className", "bg-gradient-to-r from-[#FB540C] to-[#DD7D31] bg-clip-text font-gradual text-[2.5rem] font-bold leading-none text-transparent sm:text-[3.5rem]")] [
          .text "20k"],
        .elem "h3" [("className", "mt-1 text-sm sm:text-base")] [.text "Github Stars"]],
      .elem "div" [("className", "text-center lg:py-12")] [
        .elem "p" [("className", "bg-gradient-to-r from-[#B59C53] to-[#A5A76B] bg-clip-text font-gradual text-[2.5rem] font-bold leading-none text-transparent sm:text-[3.5rem]")] [
          .text "10k"],
        .elem "h3" [("className", "mt-1 text-sm sm:text-base")] [.text "Discord Users"]],
      .elem "div" [("className", "text-center lg:py-12")] [
        .elem "p" [("className", "bg-gradient-to-r from-[#93B083] to-[#7BBB9F] bg-clip-text font-gradual text-[2.5rem] font-bold leading-none text-transparent sm:text-[3.5rem]")] [
          .text "100"],
        .elem "h3" [("className", "mt-1 text-sm sm:text-base")] [.text "Contributors"]]]]

/-- Modelled from the spec: one highlight entry of the metrics strip
(section 3 of the specification). -/
structure Metric where
  value : String
  label : String
  gradientStart : String
  gradientEnd : String

/-- Modelled from the spec: the input of the generalised metrics-strip
component (section 3 of the specification). -/
structure MetricsStripConfig where
  heading : String
  ctaLabel : String
  ctaHref : String
  metrics : List Metric

/-- Modelled from the spec: the heading plus call-to-action block, the
source heading block with the three literals replaced by the
configuration fields. -/
def headingBlock (cfg : MetricsStripConfig) : Node :=
  .elem "div" [("className", "col-span-3 lg:col-span-1 lg:py-12")] [
    .elem "h2" [("className", "font-gradual text-2xl font-bold text-[#C2C2C2]")] [
      .text cfg.heading],
    .elem "a" [("href", cfg.ctaHref), ("className", "group mt-3 inline-flex items-center")] [
      .text cfg.ctaLabel,
      .elem "svg" [("className", "relative left-2 text-[#D8D8D8] transition-all duration-300 ease-in-out group-hover:left-4"),
                   ("width", "17"), ("height", "14"), ("viewBox", "0 0 17 14"),
                   ("fill", "none"), ("stroke", "currentColor"),
                   ("xmlns", "http://www.w3.org/2000/svg")] [
        .elem "path" [("d", "M0 7H15M15 7L9.78261 1M15 7L9.78261 13"), ("strokeWidth", "2")] []]]]

/-- The decorative chevron separator, verbatim from the source. -/
def chevronSeparator : Node :=
  .elem "svg" [("className", "hidden h-full w-auto text-[#191919] lg:block"),
               ("width", "51"), ("height", "192"), ("viewBox", "0 0 51 192"),
               ("fill", "currentColor"), ("xmlns", "http://www.w3.org/2000/svg")] [
    .elem "path" [("d", "M0 0H1L51 96L1 192H0L50 96L0 0Z")] []]

/-- Modelled from the spec: one metric display block, the source metric
column with value, label and the two gradient stops replaced by the
fields of the metric. -/
def metricBlock (m : Metric) : Node :=
  .elem "div" [("className", "text-center lg:py-12")] [
    .elem "p" [("className", "bg-gradient-to-r from-[" ++ m.gradientStart ++ "] to-[" ++ m.gradientEnd ++ "] bg-clip-text font-gradual text-[2.5rem] font-bold leading-none text-transparent sm:text-[3.5rem]")] [
      .text m.value],
    .elem "h3" [("className", "mt-1 text-sm sm:text-base")] [.text m.label]]

/-- Modelled from the spec: the generalised metrics-strip component, a pure
function from a configuration to a markup tree, with the same wrapper,
grid container, heading block and separator as the source and one metric
block per entry of `metrics`, in order. -/
def MetricsStrip (cfg : MetricsStripConfig) : Node :=
  .elem "div" [("className", "mt-24 border-y border-[#191919] py-12 lg:py-0")] [
    .elem "div" [("className", "mx-auto grid w-full max-w-[1280px] grid-cols-3 gap-y-12 gap-x-8 px-5 sm:gap-14 sm:px-10 lg:grid-cols-[1fr_51px_1fr_1fr_1fr] lg:items-center")]
      (headingBlock cfg :: chevronSeparator :: cfg.metrics.map metricBlock)]

/-- The literal reference configuration: the content hardcoded in the
source component. -/
def referenceConfig : MetricsStripConfig :=
  { heading := "Supported by the community"
    ctaLabel := "Join them now"
    ctaHref := "#"
    metrics := [
      { value := "20k", label := "Github Stars", gradientStart := "#FB540C", gradientEnd := "#DD7D31" },
      { value := "10k", label := "Discord Users", gradientStart := "#B59C53", gradientEnd := "#A5A76B" },
      { value := "100", label := "Contributors", gradientStart := "#93B083", gradientEnd := "#7BBB9F" }] }

mutual

/-- All text-node contents of a tree, in document order. -/
def textsOf : Node → List String
  | .text s => [s]
  | .elem _ _ cs => textsOfList cs

/-- `textsOf` over a forest. -/
def textsOfList : List Node → List String
  | [] => []
  | n :: ns => textsOf n ++ textsOfList ns

end

/-- Whether a node is a metric display block: a `div` carrying the metric
column class list of the source. -/
def isMetricBlock : Node → Bool
  | .elem tg a _ => tg == "div" && (List.lookup "className" a == some "text-center lg:py-12")
  | .text _ => false

mutual

/-- All metric display blocks of a tree, in document order. -/
def blocksIn : Node → List Node
  | .text _ => []
  | .elem tg a cs =>
      (if isMetricBlock (.elem tg a cs) then [Node.elem tg a cs] else []) ++ blocksInList cs

/-- `blocksIn` over a forest. -/
def blocksInList : List Node → List Node
  | [] => []
  | n :: ns => blocksIn n ++ blocksInList ns

end

mutual

/-- All anchor (link) elements of a tree, in document order. -/
def linksIn : Node → List Node
  | .text _ => []
  | .elem tg a cs =>
      (if tg == "a" then [Node.elem tg a cs] else []) ++ linksInList cs

/-- `linksIn` over a forest. -/
def linksInList : List Node → List Node
  | [] => []
  | n :: ns => linksIn n ++ linksInList ns

end

mutual

/-- All svg elements of a tree, in document order. -/
def svgNodes : Node → List Node
  | .text _ => []
  | .elem tg a cs =>
      (if tg == "svg" then [Node.elem tg a cs] else []) ++ svgNodesList cs

/-- `svgNodes` over a forest. -/
def svgNodesList : List Node → List Node
  | [] => []
  | n :: ns => svgNodes n ++ svgNodesList ns

end

/-- Whether an element is explicitly marked as purely decorative for
assistive technology: `aria-hidden="true"` or a presentational role. -/
def markedDecorative : Node → Bool
  | .text _ => false
  | .elem _ a _ =>
      List.lookup "aria-hidden" a == some "true" ||
      List.lookup "role" a == some "presentation" ||
      List.lookup "role" a == some "none"

mutual

/-- The narration text of a tree: all text-node contents in document
order, skipping every subtree whose root carries `aria-hidden="true"`. -/
def narratedTexts : Node → List String
  | .text s => [s]
  | .elem _ a cs =>
      if List.lookup "aria-hidden" a == some "true" then []
      else narratedTextsList cs

/-- `narratedTexts` over a forest. -/
def narratedTextsList : List Node → List String
  | [] => []
  | n :: ns => narratedTexts n ++ narratedTextsList ns

end

/-- Serialise an attribute list. -/
def renderAttrs : Attrs → String
  | [] => ""
  | (k, v) :: rest => " " ++ k ++ "=\"" ++ v ++ "\"" ++ renderAttrs rest

mutual

/-- Serialise a tree to its markup string, byte for byte. -/
def renderHtml : Node → String
  | .text s => s
  | .elem tg a cs => "<" ++ tg ++ renderAttrs a ++ ">" ++ renderHtmlList cs ++ "</" ++ tg ++ ">"

/-- `renderHtml` over a forest. -/
def renderHtmlList : List Node → String
  | [] => ""
  | n :: ns => renderHtml n ++ renderHtmlList ns

end

/-!
## Tailwind utility-class semantics

Only the utilities the component actually uses for layout are interpreted:
responsive variants (`sm:`, `lg:`), the group-hover variant, display
utilities (`hidden`, `block`, `grid`, `inline-flex`, `flex`), grid column
templates (`grid-cols-3`, the arbitrary template
`grid-cols-[1fr_51px_1fr_1fr_1fr]`), column spans (`col-span-N`) and the
`left-N` offset.  Strings are processed through their character lists so
that every function reduces by plain structural computation.
-/

/-- Split a character list at every occurrence of a separator. -/
def splitAux (sep : Char) : List Char → List Char → List (List Char)
  | [], acc => [acc.reverse]
  | c :: rest, acc =>
      if c = sep then acc.reverse :: splitAux sep rest []
      else splitAux sep rest (c :: acc)

/-- Split a character list on a separator character. -/
def splitChars (sep : Char) (l : List Char) : List (List Char) := splitAux sep l []

/-- The class tokens of a node: its `className` split on spaces. -/
def classTokens (n : Node) : List (List Char) :=
  splitChars ' ' (classAttr n).data

/-- Split a class token into its variant part (before the colon, empty for
an unprefixed utility) and the utility part. -/
def splitVariant (t : List Char) : List Char × List Char :=
  match splitChars ':' t with
  | [v, u] => (v, u)
  | _ => ([], t)

/-- Read a decimal numeral from a character list. -/
def digitsToNat : List Char → Option Nat
  | [] => none
  | l => l.foldl (fun acc c => acc.bind (fun n => if c.isDigit then some (n * 10 + (c.toNat - 48)) else none)) (some 0)

/-- The CSS property a utility token settles, for the utilities interpreted
here. -/
def propertyOf (u : List Char) : Option (List Char) :=
  if List.isPrefixOf "grid-cols-".data u then some "grid-template-columns".data
  else if List.isPrefixOf "col-span-".data u then some "col-span".data
  else if u = "hidden".data || u = "block".data || u = "grid".data ||
          u = "inline-flex".data || u = "flex".data then some "display".data
  else if List.isPrefixOf "left-".data u then some "left".data
  else none

/-- The device and interaction state a render is evaluated at: whether the
`lg` breakpoint is active (wide viewport; `lg` implies `sm`), and whether
the pointer hovers the group. -/
structure Screen where
  wide : Bool
  hover : Bool

/-- Whether a variant prefix applies at a screen state. -/
def variantActive (s : Screen) (v : List Char) : Bool :=
  v = [] || (s.wide && (v = "lg".data || v = "sm".data)) || (s.hover && v = "group-hover".data)

/-- Cascade precedence of a variant: variant-prefixed utilities are emitted
after (and so override) unprefixed ones, `lg` after `sm`, and group-hover
rules carry higher specificity. -/
def variantRank (v : List Char) : Nat :=
  if v = "sm".data then 1
  else if v = "lg".data then 2
  else if v = "group-hover".data then 3
  else 0

/-- Resolve a CSS property from a class token list at a screen state: among
the applicable utilities settling the property, the one with the highest
variant precedence wins (the later one on a tie, as in the emitted
stylesheet). -/
def resolveProp (s : Screen) (cls : List (List Char)) (prop : List Char) : Option (List Char) :=
  let step := fun (acc : Option (List Char × List Char)) (t : List Char) =>
    let p := splitVariant t
    if variantActive s p.1 && propertyOf p.2 == some prop then
      match acc with
      | none => some p
      | some q => if variantRank q.1 ≤ variantRank p.1 then some p else acc
    else acc
  (cls.foldl step none).map (fun p => p.2)

/-- Whether a node is hidden (display none) at a screen state. -/
def hiddenAt (s : Screen) (n : Node) : Bool :=
  resolveProp s (classTokens n) "display".data == some "hidden".data

/-- The grid column span of a node at a screen state (1 when unspecified). -/
def colSpanAt (s : Screen) (n : Node) : Nat :=
  match resolveProp s (classTokens n) "col-span".data with
  | some u => (digitsToNat (u.drop 9)).getD 1
  | none => 1

/-- One track of a grid column template: a flexible `fr` track or a fixed
pixel-width track. -/
inductive Track where
  | fr (n : Nat)
  | px (n : Nat)
deriving DecidableEq

/-- Parse one track of an arbitrary-value grid template. -/
def parseTrack (t : List Char) : Option Track :=
  if List.isSuffixOf "fr".data t then (digitsToNat (t.dropLast.dropLast)).map Track.fr
  else if List.isSuffixOf "px".data t then (digitsToNat (t.dropLast.dropLast)).map Track.px
  else none

/-- The grid column template of a node at a screen state: `grid-cols-N`
gives N equal flexible tracks, `grid-cols-[..]` is parsed from its
underscore-separated arbitrary value. -/
def gridTemplateAt (s : Screen) (n : Node) : List Track :=
  match resolveProp s (classTokens n) "grid-template-columns".data with
  | some u =>
      match u.drop 10 with
      | '[' :: inner => (splitChars '_' inner.dropLast).filterMap parseTrack
      | rest =>
          match digitsToNat rest with
          | some k => List.replicate k (Track.fr 1)
          | none => []
  | none => []

/-- The `left` offset of a node at a screen state, in Tailwind spacing
units. -/
def leftAt (s : Screen) (n : Node) : Option Nat :=
  (resolveProp s (classTokens n) "left".data).bind (fun u => digitsToNat (u.drop 5))

/-- A cell of a grid: row and starting column, both zero-based. -/
structure Cell where
  row : Nat
  col : Nat
deriving DecidableEq

/-- CSS grid sequential (row-flow) auto-placement: place items with the
given column spans into a template of `ncols` columns, wrapping to the
next row when a span no longer fits. -/
def placeSeq (ncols : Nat) : Nat → Nat → List Nat → List Cell
  | _, _, [] => []
  | r, c, sp :: rest =>
      let s := min (max sp 1) (max ncols 1)
      if c + s ≤ ncols then
        { row := r, col := c } :: placeSeq ncols r (c + s) rest
      else
        { row := r + 1, col := 0 } :: placeSeq ncols (r + 1) s rest

/-- The children of a node that are displayed at a screen state. -/
def visibleChildren (s : Screen) (n : Node) : List Node :=
  (childrenOf n).filter (fun c => !(hiddenAt s c))

/-- The grid placement of the visible children of a container at a screen
state. -/
def placementAt (s : Screen) (n : Node) : List Cell :=
  placeSeq (gridTemplateAt s n).length 0 0 ((visibleChildren s n).map (colSpanAt s))

/-- The inner grid container of the component output (the single child of
the outer wrapper). -/
def gridContainer (t : Node) : Node :=
  (childrenOf t).getD 0 (.text "")

/-- The gradient colour pair a metric block renders its value with, read
back from the rendered classes of its value paragraph: requires the
left-to-right gradient direction utility and strips the `from-[..]` and
`to-[..]` arbitrary values. -/
def gradientPairOf (b : Node) : Option (String × String) :=
  match childrenOf b with
  | p :: _ =>
      let cls := classTokens p
      if cls.contains "bg-gradient-to-r".data then
        match cls.find? (fun c => List.isPrefixOf "from-[".data c),
              cls.find? (fun c => List.isPrefixOf "to-[".data c) with
        | some f, some t => some (String.mk ((f.drop 6).dropLast), String.mk ((t.drop 4).dropLast))
        | _, _ => none
      else none
  | _ => none

/-- The ambient state of one render pass: how many times the host page has
rendered before and the wall-clock time of the pass. -/
structure RenderContext where
  renderCount : Nat
  timeMillis : Nat

/-- Modelled from the spec: one render pass of the metrics strip in the
host page.  The source component body reads no ambient state (no hooks,
no globals, no clock), so the pass context cannot reach the output; the
embedding records that by taking the context as an unused argument and
serialising the tree the pure component returns. -/
def renderPass (cfg : MetricsStripConfig) (_ : RenderContext) : String :=
  renderHtml (MetricsStrip cfg)

/-!
## Helper lemmas

Normal forms of the observation functions on the metrics strip, for an
arbitrary configuration.  `ctaArrow` and `ctaLink` name (definitionally
equal copies of) the arrow glyph and the call-to-action anchor subtrees of
the output, so that statements can speak about them directly.
-/

/-- The trailing arrow glyph of the call-to-action link, as rendered. -/
def ctaArrow : Node :=
  .elem "svg" [("className", "relative left-2 text-[#D8D8D8] transition-all duration-300 ease-in-out group-hover:left-4"),
               ("width", "17"), ("height", "14"), ("viewBox", "0 0 17 14"),
               ("fill", "none"), ("stroke", "currentColor"),
               ("xmlns", "http://www.w3.org/2000/svg")] [
    .elem "path" [("d", "M0 7H15M15 7L9.78261 1M15 7L9.78261 13"), ("strokeWidth", "2")] []]

/-- The call-to-action anchor of the metrics strip at a configuration, as
rendered. -/
def ctaLink (cfg : MetricsStripConfig) : Node :=
  .elem "a" [("href", cfg.ctaHref), ("className", "group mt-3 inline-flex items-center")] [
    .text cfg.ctaLabel, ctaArrow]

theorem blocksIn_metricBlock (m : Metric) : blocksIn (metricBlock m) = [metricBlock m] := rfl

theorem blocksInList_map_metricBlock (ms : List Metric) :
    blocksInList (ms.map metricBlock) = ms.map metricBlock := by
  induction ms with
  | nil => rfl
  | cons m t ih => simp [List.map_cons, blocksInList, blocksIn_metricBlock, ih]

theorem blocksIn_metricsStrip (cfg : MetricsStripConfig) :
    blocksIn (MetricsStrip cfg) = cfg.metrics.map metricBlock := by
  have h : blocksIn (MetricsStrip cfg)
      = blocksInList (cfg.metrics.map metricBlock) ++ [] := rfl
  rw [h, List.append_nil, blocksInList_map_metricBlock]

theorem textsOf_metricBlock (m : Metric) : textsOf (metricBlock m) = [m.value, m.label] := rfl

theorem textsOfList_map_metricBlock (ms : List Metric) :
    textsOfList (ms.map metricBlock) = (ms.map (fun m => [m.value, m.label])).flatten := by
  induction ms with
  | nil => rfl
  | cons m t ih => simp [List.map_cons, textsOfList, textsOf_metricBlock, ih]

theorem textsOf_metricsStrip (cfg : MetricsStripConfig) :
    textsOf (MetricsStrip cfg)
      = cfg.heading :: cfg.ctaLabel :: (cfg.metrics.map (fun m => [m.value, m.label])).flatten := by
  have h : textsOf (MetricsStrip cfg)
      = cfg.heading :: cfg.ctaLabel :: (textsOfList (cfg.metrics.map metricBlock) ++ []) := rfl
  rw [h, List.append_nil, textsOfList_map_metricBlock]

theorem narratedTexts_metricBlock (m : Metric) :
    narratedTexts (metricBlock m) = [m.value, m.label] := rfl

theorem narratedTextsList_map_metricBlock (ms : List Metric) :
    narratedTextsList (ms.map metricBlock) = (ms.map (fun m => [m.value, m.label])).flatten := by
  induction ms with
  | nil => rfl
  | cons m t ih => simp [List.map_cons, narratedTextsList, narratedTexts_metricBlock, ih]

theorem narratedTexts_metricsStrip (cfg : MetricsStripConfig) :
    narratedTexts (MetricsStrip cfg)
      = cfg.heading :: cfg.ctaLabel :: (cfg.metrics.map (fun m => [m.value, m.label])).flatten := by
  have h : narratedTexts (MetricsStrip cfg)
      = cfg.heading :: cfg.ctaLabel :: (narratedTextsList (cfg.metrics.map metricBlock) ++ []) := rfl
  rw [h, List.append_nil, narratedTextsList_map_metricBlock]

theorem svgNodes_metricBlock (m : Metric) : svgNodes (metricBlock m) = [] := rfl

theorem svgNodesList_map_metricBlock (ms : List Metric) :
    svgNodesList (ms.map metricBlock) = [] := by
  induction ms with
  | nil => rfl
  | cons m t ih => simp [List.map_cons, svgNodesList, svgNodes_metricBlock, ih]

theorem svgNodes_metricsStrip (cfg : MetricsStripConfig) :
    svgNodes (MetricsStrip cfg) = [ctaArrow, chevronSeparator] := by
  have h : svgNodes (MetricsStrip cfg)
      = ctaArrow :: chevronSeparator :: (svgNodesList (cfg.metrics.map metricBlock) ++ []) := rfl
  rw [h, svgNodesList_map_metricBlock]
  rfl

theorem linksIn_metricBlock (m : Metric) : linksIn (metricBlock m) = [] := rfl

theorem linksInList_map_metricBlock (ms : List Metric) :
    linksInList (ms.map metricBlock) = [] := by
  induction ms with
  | nil => rfl
  | cons m t ih => simp [List.map_cons, linksInList, linksIn_metricBlock, ih]

theorem linksIn_metricsStrip (cfg : MetricsStripConfig) :
    linksIn (MetricsStrip cfg) = [ctaLink cfg] := by
  have h : linksIn (MetricsStrip cfg)
      = ctaLink cfg :: (linksInList (cfg.metrics.map metricBlock) ++ []) := rfl
  rw [h, linksInList_map_metricBlock]
  rfl

/-!
## Claims
-/

/-- C1: For a metrics sequence of length N, rendering the metrics strip
produces exactly N metric display blocks, appearing in the same
left-to-right order as the input sequence; for the reference content
(the source component) there are exactly three blocks. -/
theorem C1_block_count_and_order :
    (∀ cfg : MetricsStripConfig,
        blocksIn (MetricsStrip cfg) = cfg.metrics.map metricBlock ∧
        (blocksIn (MetricsStrip cfg)).length = cfg.metrics.length) ∧
    (blocksIn (CommunitySupportedNumbers [])).length = 3 := by
  refine ⟨fun cfg => ⟨blocksIn_metricsStrip cfg, ?_⟩, rfl⟩
  rw [blocksIn_metricsStrip]
  simp

/-- C2: For the literal reference content, the rendered output contains the
three labels Github Stars, Discord Users and Contributors in that order,
each paired inside its block with the corresponding value text 20k, 10k
and 100, and the full text sequence starts with the heading and the CTA
label. -/
theorem C2_reference_labels_and_values :
    (blocksIn (CommunitySupportedNumbers [])).map textsOf =
      [["20k", "Github Stars"], ["10k", "Discord Users"], ["100", "Contributors"]] ∧
    textsOf (CommunitySupportedNumbers []) =
      ["Supported by the community", "Join them now",
       "20k", "Github Stars", "10k", "Discord Users", "100", "Contributors"] :=
  ⟨rfl, rfl⟩

/-- C3: Rendering the metrics strip is a total function: for every
structurally valid configuration it produces a tree whose text content is
exactly the heading, the CTA label and the value/label pair of every
metric; with an empty metrics sequence it renders the heading/CTA block
and zero metric blocks. -/
theorem C3_total_rendering :
    (∀ cfg : MetricsStripConfig,
        textsOf (MetricsStrip cfg) =
          cfg.heading :: cfg.ctaLabel :: (cfg.metrics.map (fun m => [m.value, m.label])).flatten) ∧
    (∀ h c r : String,
        blocksIn (MetricsStrip ⟨h, c, r, []⟩) = [] ∧
        textsOf (MetricsStrip ⟨h, c, r, []⟩) = [h, c]) := by
  refine ⟨textsOf_metricsStrip, fun h c r => ⟨?_, ?_⟩⟩
  · rw [blocksIn_metricsStrip]; rfl
  · rw [textsOf_metricsStrip]; rfl

/-- C4: Rendering is deterministic and pure: at a fixed configuration, any
two render passes, whatever their render count and timing, serialise to
byte-identical markup; likewise any two invocations of the source
component produce byte-identical markup. -/
theorem C4_deterministic_render :
    (∀ (cfg : MetricsStripConfig) (c1 c2 : RenderContext),
        renderPass cfg c1 = renderPass cfg c2) ∧
    (∀ p q : Attrs,
        renderHtml (CommunitySupportedNumbers p) = renderHtml (CommunitySupportedNumbers q)) :=
  ⟨fun _ _ _ => rfl, fun _ _ => rfl⟩

/-- C5 counterexample: the rendered output of the source component contains
its two decorative svg glyphs (the CTA arrow and the chevron separator),
and neither carries any decorative marking: no `aria-hidden="true"` and no
presentational role, so the glyphs are not marked purely decorative as the
claim states. -/
theorem C5_counterexample :
    svgNodes (CommunitySupportedNumbers []) = [ctaArrow, chevronSeparator] ∧
    (svgNodes (CommunitySupportedNumbers [])).all markedDecorative = false ∧
    (svgNodes (CommunitySupportedNumbers [])).map (fun s => (attrsOf s).lookup "aria-hidden") =
      [none, none] ∧
    (svgNodes (CommunitySupportedNumbers [])).map (fun s => (attrsOf s).lookup "role") =
      [none, none] :=
  ⟨rfl, rfl, rfl, rfl⟩

/-- C5 amended: in every rendered output the two decorative glyphs are
present in the markup and contain no text, so they contribute nothing to
the text narration, and all textual content (heading, CTA label, every
value and label) appears in the narration; however the glyphs carry no
explicit decorative marking (no aria-hidden, no presentational role). -/
theorem C5_amended_narration (cfg : MetricsStripConfig) :
    narratedTexts (MetricsStrip cfg) =
      cfg.heading :: cfg.ctaLabel :: (cfg.metrics.map (fun m => [m.value, m.label])).flatten ∧
    svgNodes (MetricsStrip cfg) = [ctaArrow, chevronSeparator] ∧
    (svgNodes (MetricsStrip cfg)).all (fun s => textsOf s == []) = true ∧
    (svgNodes (MetricsStrip cfg)).all markedDecorative = false := by
  refine ⟨narratedTexts_metricsStrip cfg, svgNodes_metricsStrip cfg, ?_, ?_⟩
  · rw [svgNodes_metricsStrip]; rfl
  · rw [svgNodes_metricsStrip]; rfl

/-- C6 counterexample: on narrow viewports the grid container of the source
component resolves to a three-column template, not a single column, and
the three metric blocks are placed side by side in one row (row 1,
columns 0, 1, 2) below the full-width heading block, refuting the claimed
single-column vertical stacking. -/
theorem C6_counterexample :
    (gridTemplateAt ⟨false, false⟩ (gridContainer (CommunitySupportedNumbers []))).length = 3 ∧
    ((gridTemplateAt ⟨false, false⟩ (gridContainer (CommunitySupportedNumbers []))).length == 1)
      = false ∧
    placementAt ⟨false, false⟩ (gridContainer (CommunitySupportedNumbers [])) =
      [⟨0, 0⟩, ⟨1, 0⟩, ⟨1, 1⟩, ⟨1, 2⟩] :=
  ⟨rfl, rfl, rfl⟩

/-- C6 amended: on narrow viewports the source component lays out a
three-column grid in which the heading/CTA block spans all three columns
and so fills the first row, the decorative separator is hidden, and the
three metric blocks sit side by side in the second row, one per column,
in input order. -/
theorem C6_amended_narrow_layout :
    gridTemplateAt ⟨false, false⟩ (gridContainer (CommunitySupportedNumbers [])) =
      [.fr 1, .fr 1, .fr 1] ∧
    colSpanAt ⟨false, false⟩
      ((childrenOf (gridContainer (CommunitySupportedNumbers []))).getD 0 (.text "")) = 3 ∧
    hiddenAt ⟨false, false⟩
      ((childrenOf (gridContainer (CommunitySupportedNumbers []))).getD 1 (.text "")) = true ∧
    (visibleChildren ⟨false, false⟩ (gridContainer (CommunitySupportedNumbers []))).drop 1 =
      blocksIn (CommunitySupportedNumbers []) ∧
    placementAt ⟨false, false⟩ (gridContainer (CommunitySupportedNumbers [])) =
      [⟨0, 0⟩, ⟨1, 0⟩, ⟨1, 1⟩, ⟨1, 2⟩] :=
  ⟨rfl, rfl, rfl, rfl, rfl⟩

/-- C7: on wide viewports the grid container of the source component
resolves to the five-column template [1fr, 51px, 1fr, 1fr, 1fr]; the
heading/CTA block occupies the first column, the decorative separator is
visible and occupies the fixed 51-pixel second slot, and the metric
blocks occupy columns 2, 3 and 4 of the same row, in input order. -/
theorem C7_wide_layout :
    gridTemplateAt ⟨true, false⟩ (gridContainer (CommunitySupportedNumbers [])) =
      [.fr 1, .px 51, .fr 1, .fr 1, .fr 1] ∧
    hiddenAt ⟨true, false⟩
      ((childrenOf (gridContainer (CommunitySupportedNumbers []))).getD 1 (.text "")) = false ∧
    tagOf ((childrenOf (gridContainer (CommunitySupportedNumbers []))).getD 1 (.text "")) =
      "svg" ∧
    (visibleChildren ⟨true, false⟩ (gridContainer (CommunitySupportedNumbers []))).map
      (colSpanAt ⟨true, false⟩) = [1, 1, 1, 1, 1] ∧
    placementAt ⟨true, false⟩ (gridContainer (CommunitySupportedNumbers [])) =
      [⟨0, 0⟩, ⟨0, 1⟩, ⟨0, 2⟩, ⟨0, 3⟩, ⟨0, 4⟩] ∧
    (visibleChildren ⟨true, false⟩ (gridContainer (CommunitySupportedNumbers []))).drop 2 =
      blocksIn (CommunitySupportedNumbers []) :=
  ⟨rfl, rfl, rfl, rfl, rfl, rfl⟩

/-- C8: in every rendered output the CTA appears as exactly one navigable
anchor whose href is the configured ctaHref and whose text is the
configured ctaLabel; its trailing arrow glyph sits at offset left-2
normally and shifts to left-4 on pointer hover of the link group (a purely
cosmetic change of one positioning utility), and the anchor carries no
event-handler attribute, so activation is ordinary link navigation. -/
theorem C8_cta_link (cfg : MetricsStripConfig) :
    linksIn (MetricsStrip cfg) = [ctaLink cfg] ∧
    (attrsOf (ctaLink cfg)).lookup "href" = some cfg.ctaHref ∧
    textsOf (ctaLink cfg) = [cfg.ctaLabel] ∧
    svgNodes (ctaLink cfg) = [ctaArrow] ∧
    leftAt ⟨false, false⟩ ctaArrow = some 2 ∧
    leftAt ⟨false, true⟩ ctaArrow = some 4 ∧
    (attrsOf (ctaLink cfg)).all (fun p => !(List.isPrefixOf "on".data p.1.data)) = true :=
  ⟨linksIn_metricsStrip cfg, rfl, rfl, rfl, rfl, rfl, rfl⟩

/-- C9: in the rendered output of the source component, every metric block
renders its value with the left-to-right gradient direction utility, the
gradient colour pair read back from each block is exactly the
gradientStart/gradientEnd pair of the corresponding reference metric, and
the three pairs are pairwise distinct. -/
theorem C9_value_gradients :
    (blocksIn (CommunitySupportedNumbers [])).map gradientPairOf =
      referenceConfig.metrics.map (fun m => some (m.gradientStart, m.gradientEnd)) ∧
    (blocksIn (CommunitySupportedNumbers [])).all
      (fun b => (classTokens ((childrenOf b).getD 0 (.text ""))).contains "bg-gradient-to-r".data)
      = true ∧
    ((blocksIn (CommunitySupportedNumbers [])).map gradientPairOf).Nodup := by
  refine ⟨rfl, rfl, ?_⟩
  have h : (blocksIn (CommunitySupportedNumbers [])).map gradientPairOf =
      [some ("#FB540C", "#DD7D31"), some ("#B59C53", "#A5A76B"), some ("#93B083", "#7BBB9F")] := rfl
  rw [h]
  decide

/-- C10: the implemented component is a constant function: it ignores
whatever props it is invoked with, every invocation returns the same fixed
tree, that tree is exactly the metrics strip at the literal reference
configuration, and all of its content (heading, CTA label, the hardcoded
href "#", and the three value/label pairs) is fixed. -/
theorem C10_constant_component (p q : Attrs) :
    CommunitySupportedNumbers p = CommunitySupportedNumbers q ∧
    CommunitySupportedNumbers p = MetricsStrip referenceConfig ∧
    textsOf (CommunitySupportedNumbers p) =
      ["Supported by the community", "Join them now",
       "20k", "Github Stars", "10k", "Discord Users", "100", "Contributors"] ∧
    (linksIn (CommunitySupportedNumbers p)).map (fun l => (attrsOf l).lookup "href") =
      [some "#"] :=
  ⟨rfl, rfl, rfl, rfl⟩
